import Mathlib

/-!
Verification development for the link access and expiry engine of the
Autodestroy PDF platform (src/backend/server.py).

Shallow embedding conventions:
* Timestamps and durations are integer seconds (Lean `Int`), matching the
  second-granularity comparisons the server performs on `datetime` values.
* The Mongo document for a link is embedded as the `Link` structure; the
  per-IP countdown map `ip_sessions` is an association list keyed by the
  client IP string, and `unique_ips` is the stored list (a set by
  construction, since an IP is appended only when absent).
* Database reads that touch other collections are passed in as parameters:
  `ownerActive` stands for the lookup of the owning user and the check
  `subscription_status == "active"`, and `pdfFound` / `fileExists` stand for
  the pdf-document lookup and the filesystem check in `get_pdf_file`.
* A viewer request carries the client IP, the user-agent header value and
  the current time; the endpoint handlers become pure state transformers
  returning the response together with the link record as it is stored in
  the database after all `update_one` calls of that request.
* Python truthiness on optional strings (`x or default`) is embedded as
  `strOr`; the empty string counts as absent, as in Python.
* The only uncaught-exception path reachable inside `access_link` for a
  stored link is a countdown link whose `expiry_duration_seconds` field is
  null (Python would raise a `TypeError` building the `timedelta`); the
  embedding returns `none` there and `some (response, link)` otherwise.
-/

/-- One per-IP countdown session, as stored in `ip_sessions` by
`access_link`: the time of the first open by that IP and the derived
deadline `first_open + expiry_duration_seconds`. -/
structure IpSession where
  first_open : Int
  expires_at : Int
deriving DecidableEq

/-- One entry of the bounded `access_log`: client IP, timestamp, and the
user-agent header truncated to 200 characters. -/
structure AccessEntry where
  ip : String
  timestamp : Int
  user_agent : String
deriving DecidableEq

/-- The link document stored in `db.links`, restricted to the fields the
engine reads or writes. -/
structure Link where
  link_id : String
  pdf_id : String
  user_id : String
  token : String
  expiry_mode : String
  expiry_duration_seconds : Option Int
  first_open_at : Option Int
  expires_at : Option Int
  open_count : Nat
  unique_ips : List String
  ip_sessions : List (String × IpSession)
  status : String
  custom_expired_url : Option String
  custom_expired_message : Option String
  created_at : Int
  access_log : List AccessEntry
deriving DecidableEq

/-- The `LinkAccessResponse` pydantic model returned by `access_link`.
The random `viewer_id` field (fresh entropy per request) is omitted; the
watermark dictionary is flattened into its three fields. -/
structure LinkAccessResponse where
  status : String
  pdf_url : Option String := none
  expires_at : Option Int := none
  remaining_seconds : Option Int := none
  watermark_ip : Option String := none
  watermark_timestamp : Option Int := none
  watermark_link_id : Option String := none
  custom_expired_url : Option String := none
  custom_expired_message : Option String := none
deriving DecidableEq

/-- Python `x or default` on an optional string: `None` and the empty
string both fall back to the default. -/
def strOr (v : Option String) (d : String) : String :=
  match v with
  | some s => if s = "" then d else s
  | none => d

/-- Keep the last `n` elements of a list; this is the effect of the Mongo
push with slice -n used for the bounded access log. -/
def keepLast (n : Nat) (l : List α) : List α :=
  l.drop (l.length - n)

/-- The access-recording block at the end of `access_link`: increment
`open_count`, push the entry onto `access_log` keeping the last 100, and
add the IP to `unique_ips` when absent. -/
def recordAccess (l : Link) (ip ua : String) (now : Int) : Link :=
  { l with
    open_count := l.open_count + 1
    access_log := keepLast 100 (l.access_log ++ [⟨ip, now, ua.take 200⟩])
    unique_ips := if ip ∈ l.unique_ips then l.unique_ips else l.unique_ips ++ [ip] }

/-- The successful response assembled at the end of `access_link`. -/
def activeResponse (l : Link) (ip : String) (now : Int)
    (ea : Option Int) (remaining : Option Int) : LinkAccessResponse :=
  { status := "active"
    pdf_url := some ("/api/view/" ++ l.token ++ "/pdf")
    expires_at := ea
    remaining_seconds := remaining
    watermark_ip := some ip
    watermark_timestamp := some now
    watermark_link_id := some l.link_id }

/-- The handler of GET /api/view/(token), `access_link` in server.py,
for a link found under the requested token. `ownerActive` is the external
lookup of the owning user together with the check that its
`subscription_status` equals "active". The result pairs the response with
the stored link after all database updates of this request; `none` models
the uncaught `TypeError` on a countdown link whose duration field is
null. -/
def access_link (ownerActive : Bool) (l : Link) (ip ua : String) (now : Int) :
    Option (LinkAccessResponse × Link) :=
  if l.status = "revoked" then
    some ({ status := "revoked"
            custom_expired_url := l.custom_expired_url
            custom_expired_message :=
              some (strOr l.custom_expired_message "This link has been revoked") }, l)
  else if ownerActive = false then
    some ({ status := "expired"
            custom_expired_message := some "The owner\x27s subscription is inactive" }, l)
  else if l.expiry_mode = "countdown" then
    match l.expiry_duration_seconds with
    | none => none
    | some d =>
      match l.ip_sessions.lookup ip with
      | some s =>
        if now ≥ s.first_open + d then
          some ({ status := "expired"
                  custom_expired_url := l.custom_expired_url
                  custom_expired_message :=
                    some (strOr l.custom_expired_message
                      "Your viewing session has expired") }, l)
        else
          some (activeResponse l ip now (some (s.first_open + d))
                  (some (max 0 (s.first_open + d - now))),
                recordAccess l ip ua now)
      | none =>
        some (activeResponse l ip now (some (now + d)) (some d),
              recordAccess
                { l with
                  first_open_at :=
                    if l.first_open_at = none then some now else l.first_open_at
                  ip_sessions := l.ip_sessions ++ [(ip, ⟨now, now + d⟩)] }
                ip ua now)
  else
    match (if l.expiry_mode = "fixed" then l.expires_at else none) with
    | some fd =>
      if now ≥ fd then
        some ({ status := "expired"
                custom_expired_url := l.custom_expired_url
                custom_expired_message :=
                  some (strOr l.custom_expired_message "This link has expired") },
              { l with status := "expired" })
      else
        some (activeResponse l ip now (some fd) (some (max 0 (fd - now))),
              recordAccess l ip ua now)
    | none =>
      some (activeResponse l ip now none none, recordAccess l ip ua now)

/-- Outcome of GET /api/view/(token)/pdf: either an HTTP error with its
status code and detail string, or the streamed file of the pdf document
referenced by the link. -/
inductive FetchResult where
  | http (statusCode : Nat) (detail : String)
  | file (pdf_id : String)
deriving DecidableEq

/-- The tail of `get_pdf_file` after the expiry checks: look up the pdf
document and the file on disk, then stream it. -/
def fetchContent (l : Link) (pdfFound fileExists : Bool) : FetchResult × Link :=
  if pdfFound = false then (.http 404 "PDF not found", l)
  else if fileExists = false then (.http 404 "PDF file not found", l)
  else (.file l.pdf_id, l)

/-- The handler of GET /api/view/(token)/pdf, `get_pdf_file` in server.py,
for a link found under the requested token. The function performs no
database write, so the link component of the result is the stored record
as the handler leaves it. -/
def get_pdf_file (l : Link) (ip : String) (now : Int)
    (pdfFound fileExists : Bool) : FetchResult × Link :=
  if l.status = "revoked" then (.http 404 "Link not found or revoked", l)
  else if l.expiry_mode = "countdown" then
    match l.ip_sessions.lookup ip with
    | some s =>
      if now ≥ s.expires_at then
        (.http 410 "Your viewing session has expired", l)
      else fetchContent l pdfFound fileExists
    | none => (.http 403 "Please access the link first", l)
  else
    match (if l.expiry_mode = "fixed" then l.expires_at else none) with
    | some fd =>
      if now ≥ fd then (.http 410 "Link expired", l)
      else fetchContent l pdfFound fileExists
    | none => fetchContent l pdfFound fileExists

/-- The request body of POST /api/links (`LinkCreate` in server.py); the
three duration components default to 0 and are not validated. -/
structure LinkCreate where
  pdf_id : String
  expiry_mode : String
  expiry_hours : Int := 0
  expiry_minutes : Int := 0
  expiry_seconds : Int := 0
  expiry_fixed_datetime : Option Int := none
  custom_expired_url : Option String := none
  custom_expired_message : Option String := none
deriving DecidableEq

/-- The handler of POST /api/links, `create_link` in server.py.
`pdfOwned` is the lookup of the pdf under the callers user id, and
`subActive` the subscription check; on failure the handler raises the
HTTP status returned in the error component (404, then 403). The fresh
`link_id` and `token` strings are passed in, standing for the generated
uuid and `secrets.token_urlsafe(32)` values. -/
def create_link (pdfOwned subActive : Bool) (data : LinkCreate)
    (owner_id linkId tok : String) (now : Int) : Except Nat Link :=
  if pdfOwned = false then .error 404
  else if subActive = false then .error 403
  else
    .ok { link_id := linkId
          pdf_id := data.pdf_id
          user_id := owner_id
          token := tok
          expiry_mode := data.expiry_mode
          expiry_duration_seconds :=
            if data.expiry_mode = "countdown" then
              some (data.expiry_hours * 3600 + data.expiry_minutes * 60 +
                data.expiry_seconds)
            else none
          first_open_at := none
          expires_at :=
            if data.expiry_mode = "fixed" then data.expiry_fixed_datetime else none
          open_count := 0
          unique_ips := []
          ip_sessions := []
          status := "active"
          custom_expired_url := data.custom_expired_url
          custom_expired_message := data.custom_expired_message
          created_at := now
          access_log := [] }

/-- A pdf document of `db.pdfs`, restricted to the fields `delete_pdf`
reads. -/
structure Pdf where
  pdf_id : String
  user_id : String
  file_size : Int
deriving DecidableEq

/-- The handler of DELETE /api/pdfs/(pdf_id), `delete_pdf` in server.py,
acting on the pdf and link collections. `none` is the 404 when no pdf with
this id belongs to the caller; on success the pdf document is deleted, the
third component is the decrement applied to the owners `storage_used`
(the file removal on disk is an external effect), and every link whose
`pdf_id` matches is updated to status "revoked". -/
def delete_pdf (uid pid : String) (pdfs : List Pdf) (links : List Link) :
    Option (List Pdf × List Link × Int) :=
  match pdfs.find? (fun p => p.pdf_id == pid && p.user_id == uid) with
  | none => none
  | some p =>
    some (pdfs.filter (fun q => q.pdf_id ≠ pid),
          links.map (fun l => if l.pdf_id = pid then { l with status := "revoked" } else l),
          -p.file_size)

/-- One viewer request to the Resolve endpoint: client IP, user-agent
header, and the wall-clock time of the request. -/
structure ViewRequest where
  ip : String
  ua : String
  now : Int
deriving DecidableEq

/-- The access-log entry a successful Resolve of this request appends. -/
def entry_of (r : ViewRequest) : AccessEntry :=
  ⟨r.ip, r.now, r.ua.take 200⟩

/-- Run a sequence of Resolve requests against a link with an active
owner, threading the stored record through; the boolean is true when
every request completed and returned status "active" (a successful
access). A request hitting the crash path leaves the record unchanged. -/
def run_views : Link → List ViewRequest → Link × Bool
  | l, [] => (l, true)
  | l, r :: rs =>
    match access_link true l r.ip r.ua r.now with
    | some (resp, l1) =>
      ((run_views l1 rs).1, (resp.status == "active") && (run_views l1 rs).2)
    | none => ((run_views l rs).1, false)

/-! ## Sample records used by concrete witnesses -/

/-- A sample countdown link with a stored session for viewer IP "A"
(first open at time 0, deadline 60), used by concrete witnesses. -/
def sessionLink : Link :=
  { link_id := "L1", pdf_id := "P1", user_id := "U1", token := "T1",
    expiry_mode := "countdown", expiry_duration_seconds := some 60,
    first_open_at := some 0, expires_at := none, open_count := 1,
    unique_ips := ["A"], ip_sessions := [("A", ⟨0, 60⟩)], status := "active",
    custom_expired_url := none, custom_expired_message := none,
    created_at := 0, access_log := [⟨"A", 0, "u"⟩] }

/-- A sample manual-mode link with no recorded activity, used by concrete
witnesses. -/
def manualLink : Link :=
  { link_id := "L2", pdf_id := "P2", user_id := "U2", token := "T2",
    expiry_mode := "manual", expiry_duration_seconds := none,
    first_open_at := none, expires_at := none, open_count := 0,
    unique_ips := [], ip_sessions := [], status := "active",
    custom_expired_url := none, custom_expired_message := none,
    created_at := 0, access_log := [] }

/-- The sample manual link after revocation. -/
def revokedLink : Link :=
  { manualLink with status := "revoked" }

/-- A sample fixed-mode link whose shared deadline is time 100. -/
def fixedLink : Link :=
  { manualLink with expiry_mode := "fixed", expires_at := some 100 }

/-- A sample countdown link that no viewer has resolved yet. -/
def freshLink : Link :=
  { sessionLink with
    ip_sessions := []
    unique_ips := []
    open_count := 0
    access_log := []
    first_open_at := none }

/-- 101 viewer requests from the same IP at strictly increasing times,
used to witness the FIFO eviction of the bounded access log. -/
def logReqs : List ViewRequest :=
  (List.range 101).map (fun i => ⟨"A", "u", (i : Int)⟩)

/-! ## Helper lemmas: the bounded log, per-request effects of Resolve -/

theorem keepLast_length_le (n : Nat) (l : List α) : (keepLast n l).length ≤ n := by
  unfold keepLast
  rw [List.length_drop]
  omega

theorem keepLast_of_length_le {n : Nat} {l : List α} (h : l.length ≤ n) :
    keepLast n l = l := by
  unfold keepLast
  rw [Nat.sub_eq_zero_of_le h, List.drop_zero]

theorem keepLast_append (n : Nat) (a b : List α) :
    keepLast n (keepLast n a ++ b) = keepLast n (a ++ b) := by
  rcases Nat.le_total a.length n with h | h
  · rw [keepLast_of_length_le h]
  · unfold keepLast
    have h2 : (a.drop (a.length - n)).length = n := by
      rw [List.length_drop]; omega
    have hL : (a.drop (a.length - n) ++ b).length - n = b.length := by
      rw [List.length_append, h2]; omega
    rw [hL]
    have hsplit : a ++ b = a.take (a.length - n) ++ (a.drop (a.length - n) ++ b) := by
      rw [← List.append_assoc, List.take_append_drop]
    have htk : (a.take (a.length - n)).length = a.length - n := by
      rw [List.length_take]; omega
    have hR : (a ++ b).length - n = (a.take (a.length - n)).length + b.length := by
      rw [htk, List.length_append]; omega
    rw [hR, hsplit, List.drop_append]

theorem access_link_active_effects {oa : Bool} {l : Link} {ip ua : String} {now : Int}
    {resp : LinkAccessResponse} {l1 : Link}
    (h : access_link oa l ip ua now = some (resp, l1))
    (hact : resp.status = "active") :
    l1.access_log = keepLast 100 (l.access_log ++ [⟨ip, now, ua.take 200⟩]) ∧
    l1.open_count = l.open_count + 1 ∧
    l1.unique_ips = (if ip ∈ l.unique_ips then l.unique_ips else l.unique_ips ++ [ip]) ∧
    l1.status = l.status ∧
    l1.expiry_mode = l.expiry_mode ∧
    l1.expiry_duration_seconds = l.expiry_duration_seconds := by
  unfold access_link at h
  split at h
  · simp only [Option.some.injEq, Prod.mk.injEq] at h
    rw [← h.1] at hact
    simp at hact
  · split at h
    · simp only [Option.some.injEq, Prod.mk.injEq] at h
      rw [← h.1] at hact
      simp at hact
    · split at h
      · split at h
        · exact Option.noConfusion h
        · split at h
          · split at h
            · simp only [Option.some.injEq, Prod.mk.injEq] at h
              rw [← h.1] at hact
              simp at hact
            · simp only [Option.some.injEq, Prod.mk.injEq] at h
              obtain ⟨hr, hl⟩ := h
              subst hl
              simp [recordAccess]
          · simp only [Option.some.injEq, Prod.mk.injEq] at h
            obtain ⟨hr, hl⟩ := h
            subst hl
            simp [recordAccess]
      · split at h
        · split at h
          · simp only [Option.some.injEq, Prod.mk.injEq] at h
            rw [← h.1] at hact
            simp at hact
          · simp only [Option.some.injEq, Prod.mk.injEq] at h
            obtain ⟨hr, hl⟩ := h
            subst hl
            simp [recordAccess]
        · simp only [Option.some.injEq, Prod.mk.injEq] at h
          obtain ⟨hr, hl⟩ := h
          subst hl
          simp [recordAccess]

theorem access_link_not_active_effects {oa : Bool} {l : Link} {ip ua : String} {now : Int}
    {resp : LinkAccessResponse} {l1 : Link}
    (h : access_link oa l ip ua now = some (resp, l1))
    (hnact : resp.status ≠ "active") :
    l1.access_log = l.access_log ∧
    l1.open_count = l.open_count ∧
    l1.unique_ips = l.unique_ips := by
  unfold access_link at h
  split at h
  · simp only [Option.some.injEq, Prod.mk.injEq] at h
    rw [← h.2]
    exact ⟨rfl, rfl, rfl⟩
  · split at h
    · simp only [Option.some.injEq, Prod.mk.injEq] at h
      rw [← h.2]
      exact ⟨rfl, rfl, rfl⟩
    · split at h
      · split at h
        · exact Option.noConfusion h
        · split at h
          · split at h
            · simp only [Option.some.injEq, Prod.mk.injEq] at h
              rw [← h.2]
              exact ⟨rfl, rfl, rfl⟩
            · simp only [Option.some.injEq, Prod.mk.injEq] at h
              rw [← h.1] at hnact
              simp [activeResponse] at hnact
          · simp only [Option.some.injEq, Prod.mk.injEq] at h
            rw [← h.1] at hnact
            simp [activeResponse] at hnact
      · split at h
        · split at h
          · simp only [Option.some.injEq, Prod.mk.injEq] at h
            rw [← h.2]
            exact ⟨rfl, rfl, rfl⟩
          · simp only [Option.some.injEq, Prod.mk.injEq] at h
            rw [← h.1] at hnact
            simp [activeResponse] at hnact
        · simp only [Option.some.injEq, Prod.mk.injEq] at h
          rw [← h.1] at hnact
          simp [activeResponse] at hnact

theorem access_link_countdown_existing {l : Link} {d : Int} {s : IpSession} {ip : String}
    (hst : l.status ≠ "revoked") (hm : l.expiry_mode = "countdown")
    (hd : l.expiry_duration_seconds = some d)
    (hs : l.ip_sessions.lookup ip = some s) (ua : String) (now : Int) :
    access_link true l ip ua now =
      if now ≥ s.first_open + d then
        some ({ status := "expired"
                custom_expired_url := l.custom_expired_url
                custom_expired_message :=
                  some (strOr l.custom_expired_message
                    "Your viewing session has expired") }, l)
      else
        some (activeResponse l ip now (some (s.first_open + d))
                (some (max 0 (s.first_open + d - now))),
              recordAccess l ip ua now) := by
  unfold access_link
  rw [if_neg hst, if_neg (by simp), if_pos hm, hd, hs]

theorem access_link_countdown_session_frame {l : Link} {d : Int} {s : IpSession} {ip : String}
    (hst : l.status ≠ "revoked") (hm : l.expiry_mode = "countdown")
    (hd : l.expiry_duration_seconds = some d)
    (hs : l.ip_sessions.lookup ip = some s)
    {ua : String} {now : Int} {resp : LinkAccessResponse} {l1 : Link}
    (h : access_link true l ip ua now = some (resp, l1)) :
    l1.ip_sessions.lookup ip = some s ∧
    l1.status = l.status ∧
    l1.expiry_mode = l.expiry_mode ∧
    l1.expiry_duration_seconds = l.expiry_duration_seconds ∧
    (resp.status = "active" → resp.expires_at = some (s.first_open + d)) := by
  rw [access_link_countdown_existing hst hm hd hs ua now] at h
  split at h
  · simp only [Option.some.injEq, Prod.mk.injEq] at h
    obtain ⟨hr, hl⟩ := h
    subst hl
    refine ⟨hs, rfl, rfl, rfl, ?_⟩
    intro hact
    rw [← hr] at hact
    simp at hact
  · simp only [Option.some.injEq, Prod.mk.injEq] at h
    obtain ⟨hr, hl⟩ := h
    subst hl
    refine ⟨hs, rfl, rfl, rfl, ?_⟩
    intro _
    rw [← hr]
    rfl

theorem getLast?_mem_drop_one {α : Type _} {xs : List α} {a : α}
    (hlen : 2 ≤ xs.length) (h : xs.getLast? = some a) : a ∈ xs.drop 1 := by
  match xs with
  | [] => simp at hlen
  | [x] => simp at hlen
  | x :: y :: t =>
    rw [List.getLast?_cons_cons] at h
    have hne : (y :: t) ≠ [] := by simp
    rw [List.getLast?_eq_getLast _ hne] at h
    simp only [Option.some.injEq] at h
    show a ∈ y :: t
    rw [← h]
    exact List.getLast_mem hne

theorem run_views_log {l : Link} {reqs : List ViewRequest}
    (hlen : l.access_log.length ≤ 100)
    (hok : (run_views l reqs).2 = true) :
    (run_views l reqs).1.access_log = keepLast 100 (l.access_log ++ reqs.map entry_of) := by
  induction reqs generalizing l with
  | nil =>
    simp only [run_views, List.map_nil, List.append_nil, keepLast_of_length_le hlen]
  | cons r rs ih =>
    unfold run_views at hok ⊢
    cases hax : access_link true l r.ip r.ua r.now with
    | none =>
      rw [hax] at hok
      simp at hok
    | some p =>
      obtain ⟨resp, l1⟩ := p
      rw [hax] at hok
      replace hok : ((resp.status == "active") && (run_views l1 rs).2) = true := hok
      simp only [Bool.and_eq_true, beq_iff_eq] at hok
      obtain ⟨hact, hok1⟩ := hok
      have heff := access_link_active_effects hax hact
      have hlen1 : l1.access_log.length ≤ 100 := by
        rw [heff.1]
        exact keepLast_length_le 100 _
      show ((run_views l1 rs).1).access_log =
        keepLast 100 (l.access_log ++ List.map entry_of (r :: rs))
      rw [ih hlen1 hok1, heff.1, keepLast_append]
      congr 1
      simp [entry_of, List.append_assoc]

theorem run_views_log_length {l : Link} {reqs : List ViewRequest}
    (h : l.access_log.length ≤ 100) :
    (run_views l reqs).1.access_log.length ≤ 100 := by
  induction reqs generalizing l with
  | nil => simpa [run_views] using h
  | cons r rs ih =>
    unfold run_views
    cases hax : access_link true l r.ip r.ua r.now with
    | none => exact ih h
    | some p =>
      obtain ⟨resp, l1⟩ := p
      simp only []
      by_cases hact : resp.status = "active"
      · have heff := access_link_active_effects hax hact
        exact ih (by rw [heff.1]; exact keepLast_length_le 100 _)
      · have heff := access_link_not_active_effects hax hact
        exact ih (by rw [heff.1]; exact h)

theorem run_views_count_invariant {l : Link} {reqs : List ViewRequest}
    (h : l.unique_ips.length ≤ l.open_count) :
    (run_views l reqs).1.unique_ips.length ≤ (run_views l reqs).1.open_count := by
  induction reqs generalizing l with
  | nil => simpa [run_views] using h
  | cons r rs ih =>
    unfold run_views
    cases hax : access_link true l r.ip r.ua r.now with
    | none => exact ih h
    | some p =>
      obtain ⟨resp, l1⟩ := p
      simp only []
      by_cases hact : resp.status = "active"
      · have heff := access_link_active_effects hax hact
        apply ih
        rw [heff.2.1, heff.2.2.1]
        split
        · omega
        · rw [List.length_append]
          simp
          omega
      · have heff := access_link_not_active_effects hax hact
        apply ih
        rw [heff.2.1, heff.2.2]
        exact h

/-! ## The claims -/

/-- C1: on a Countdown link, a viewer IP that already has an entry in the
session map keeps exactly that entry across any Resolve call: after one or
two further Resolve calls at arbitrary times the stored session is still
the original one, and every active response reports the deadline
`first_open + expiry_duration_seconds` of that original session — the same
deadline both times, with no extension and no reset, even when the
deadline has already passed. -/
theorem countdown_resolve_idempotent
    (l : Link) (d : Int) (s : IpSession) (ip ua1 ua2 : String) (now1 now2 : Int)
    (resp1 : LinkAccessResponse) (l1 : Link) (resp2 : LinkAccessResponse) (l2 : Link)
    (hst : l.status ≠ "revoked") (hm : l.expiry_mode = "countdown")
    (hd : l.expiry_duration_seconds = some d)
    (hs : l.ip_sessions.lookup ip = some s)
    (h1 : access_link true l ip ua1 now1 = some (resp1, l1))
    (h2 : access_link true l1 ip ua2 now2 = some (resp2, l2)) :
    l1.ip_sessions.lookup ip = some s ∧
    l2.ip_sessions.lookup ip = some s ∧
    (resp1.status = "active" → resp1.expires_at = some (s.first_open + d)) ∧
    (resp2.status = "active" → resp2.expires_at = some (s.first_open + d)) := by
  obtain ⟨ha, hb, hc, hdur, he⟩ := access_link_countdown_session_frame hst hm hd hs h1
  have hst1 : l1.status ≠ "revoked" := by rw [hb]; exact hst
  have hm1 : l1.expiry_mode = "countdown" := by rw [hc]; exact hm
  have hd1 : l1.expiry_duration_seconds = some d := by rw [hdur]; exact hd
  obtain ⟨ha2, _, _, _, he2⟩ := access_link_countdown_session_frame hst1 hm1 hd1 ha h2
  exact ⟨ha, ha2, he, he2⟩

set_option maxRecDepth 4000 in
/-- Witness for C1 at the sample session link: a Resolve at time 30
(active, deadline 60) followed by a Resolve at time 61 (expired). -/
theorem countdown_resolve_idempotent_witness :
    sessionLink.expiry_duration_seconds = some 60 ∧
    ((recordAccess sessionLink "A" "u" 30).ip_sessions.lookup "A" = some ⟨0, 60⟩ ∧
     (recordAccess sessionLink "A" "u" 30).ip_sessions.lookup "A" = some ⟨0, 60⟩ ∧
     ((activeResponse sessionLink "A" 30 (some 60) (some 30)).status = "active" →
       (activeResponse sessionLink "A" 30 (some 60) (some 30)).expires_at = some (0 + 60)) ∧
     (({ status := "expired", custom_expired_url := none,
         custom_expired_message := some "Your viewing session has expired" } :
           LinkAccessResponse).status = "active" →
       ({ status := "expired", custom_expired_url := none,
          custom_expired_message := some "Your viewing session has expired" } :
            LinkAccessResponse).expires_at = some (0 + 60))) :=
  ⟨by decide,
   countdown_resolve_idempotent sessionLink 60 ⟨0, 60⟩ "A" "u" "u" 30 61 _ _ _ _
     (by decide) (by decide) (by decide) (by decide) (by decide) (by decide)⟩

/-- C2: on a Countdown link whose session deadline for this viewer has
passed (`now ≥ first_open + duration`), Resolve returns the per-viewer
expired response and leaves the stored link record completely unchanged —
in particular the link-level `status` field and every other viewer session
are untouched, so other viewers outcomes are unaffected. -/
theorem countdown_expiry_no_mutation
    (l : Link) (d : Int) (s : IpSession) (ip ua : String) (now : Int)
    (hst : l.status ≠ "revoked") (hm : l.expiry_mode = "countdown")
    (hd : l.expiry_duration_seconds = some d)
    (hs : l.ip_sessions.lookup ip = some s)
    (hnow : now ≥ s.first_open + d) :
    access_link true l ip ua now =
      some ({ status := "expired"
              custom_expired_url := l.custom_expired_url
              custom_expired_message :=
                some (strOr l.custom_expired_message "Your viewing session has expired") },
            l) := by
  rw [access_link_countdown_existing hst hm hd hs ua now, if_pos hnow]

set_option maxRecDepth 4000 in
/-- Witness for C2: viewer "A" of the sample session link at time 61. -/
theorem countdown_expiry_no_mutation_witness :
    ((61 : Int) ≥ (⟨0, 60⟩ : IpSession).first_open + 60) ∧
    access_link true sessionLink "A" "u" 61 =
      some ({ status := "expired", custom_expired_url := none,
              custom_expired_message := some "Your viewing session has expired" },
            sessionLink) :=
  ⟨by decide,
   countdown_expiry_no_mutation sessionLink 60 ⟨0, 60⟩ "A" "u" 61
     (by decide) (by decide) (by decide) (by decide) (by decide)⟩

/-- C3: on a Fixed-mode link with deadline `fd`, Resolve at `now ≥ fd`
returns the expired response and persists `status := "expired"` in the
stored record; at `now < fd` it returns an active response whose remaining
time is exactly `fd - now` (and records the access). -/
theorem fixed_deadline_resolve
    (l : Link) (fd : Int) (ip ua : String) (now : Int)
    (hst : l.status ≠ "revoked") (hm : l.expiry_mode = "fixed")
    (hfd : l.expires_at = some fd) :
    (now ≥ fd →
      access_link true l ip ua now =
        some ({ status := "expired"
                custom_expired_url := l.custom_expired_url
                custom_expired_message :=
                  some (strOr l.custom_expired_message "This link has expired") },
              { l with status := "expired" })) ∧
    (now < fd →
      access_link true l ip ua now =
        some (activeResponse l ip now (some fd) (some (fd - now)),
              recordAccess l ip ua now)) := by
  have hmc : ¬ l.expiry_mode = "countdown" := by rw [hm]; decide
  have hch : access_link true l ip ua now =
      if now ≥ fd then
        some ({ status := "expired"
                custom_expired_url := l.custom_expired_url
                custom_expired_message :=
                  some (strOr l.custom_expired_message "This link has expired") },
              { l with status := "expired" })
      else
        some (activeResponse l ip now (some fd) (some (max 0 (fd - now))),
              recordAccess l ip ua now) := by
    unfold access_link
    rw [if_neg hst, if_neg (by simp), if_neg hmc, if_pos hm, hfd]
  constructor
  · intro hge
    rw [hch, if_pos hge]
  · intro hlt
    have hmax : max 0 (fd - now) = fd - now := max_eq_right (by omega)
    rw [hch, if_neg (by omega), hmax]

/-- Witness for C3 at the sample fixed link (deadline 100), evaluated at
times 100 and 40. -/
theorem fixed_deadline_resolve_witness :
    fixedLink.expires_at = some 100 ∧
    access_link true fixedLink "A" "u" 100 =
      some ({ status := "expired", custom_expired_url := none,
              custom_expired_message := some "This link has expired" },
            { fixedLink with status := "expired" }) ∧
    access_link true fixedLink "A" "u" 40 =
      some (activeResponse fixedLink "A" 40 (some 100) (some 60),
            recordAccess fixedLink "A" "u" 40) :=
  ⟨rfl,
   (fixed_deadline_resolve fixedLink 100 "A" "u" 100 (by decide) rfl rfl).1 (by decide),
   (fixed_deadline_resolve fixedLink 100 "A" "u" 40 (by decide) rfl rfl).2 (by decide)⟩

/-- C4 counterexample: when the owner subscription is inactive, the
message of the expired response is the literal
"The owner\x27s subscription is inactive", which is not the string
"owner\x27s subscription is inactive" quoted by the claim. -/
theorem owner_inactive_message_counterexample :
    (access_link false manualLink "A" "u" 0).map
        (fun p => p.1.custom_expired_message) =
      some (some "The owner\x27s subscription is inactive") ∧
    (some (some "The owner\x27s subscription is inactive") :
        Option (Option String)) ≠ some (some "owner\x27s subscription is inactive") :=
  ⟨rfl, by decide⟩

/-- C4 (amended): Resolve checks `status = "revoked"` first and
short-circuits, returning the revoked response with the stored record
unchanged; otherwise, whenever the owner entitlement is inactive it
returns Expired with the message "The owner\x27s subscription is
inactive" and no mutation — for every link, hence for all three expiry
modes and also for links that are otherwise time-valid. -/
theorem revoked_then_entitlement_checks
    (oa : Bool) (l : Link) (ip ua : String) (now : Int) :
    (l.status = "revoked" →
      access_link oa l ip ua now =
        some ({ status := "revoked"
                custom_expired_url := l.custom_expired_url
                custom_expired_message :=
                  some (strOr l.custom_expired_message "This link has been revoked") },
              l)) ∧
    (l.status ≠ "revoked" → oa = false →
      access_link oa l ip ua now =
        some ({ status := "expired"
                custom_expired_message :=
                  some "The owner\x27s subscription is inactive" }, l)) := by
  constructor
  · intro hrev
    unfold access_link
    rw [if_pos hrev]
  · intro hst hoa
    unfold access_link
    rw [if_neg hst, if_pos hoa]

/-- Witness for C4: the revoked sample link, and the manual sample link
with an inactive owner. -/
theorem revoked_then_entitlement_checks_witness :
    revokedLink.status = "revoked" ∧
    access_link true revokedLink "A" "u" 0 =
      some ({ status := "revoked", custom_expired_url := none,
              custom_expired_message := some "This link has been revoked" },
            revokedLink) ∧
    access_link false manualLink "A" "u" 5 =
      some ({ status := "expired",
              custom_expired_message :=
                some "The owner\x27s subscription is inactive" }, manualLink) :=
  ⟨rfl,
   (revoked_then_entitlement_checks true revokedLink "A" "u" 0).1 rfl,
   (revoked_then_entitlement_checks false manualLink "A" "u" 5).2 (by decide) rfl⟩

/-- C5: on a Countdown link, Fetch by a viewer IP with no stored session
fails with 403 "Please access the link first" (SessionNotEstablished),
leaves the record unchanged (no session is created), and that error is
distinct from both ordinary expiry errors (410). -/
theorem fetch_requires_session
    (l : Link) (ip : String) (now : Int) (pdfFound fileExists : Bool)
    (hst : l.status ≠ "revoked") (hm : l.expiry_mode = "countdown")
    (hs : l.ip_sessions.lookup ip = none) :
    get_pdf_file l ip now pdfFound fileExists =
      (FetchResult.http 403 "Please access the link first", l) ∧
    FetchResult.http 403 "Please access the link first" ≠
      FetchResult.http 410 "Your viewing session has expired" ∧
    FetchResult.http 403 "Please access the link first" ≠
      FetchResult.http 410 "Link expired" := by
  refine ⟨?_, by decide, by decide⟩
  unfold get_pdf_file
  rw [if_neg hst, if_pos hm, hs]

/-- Witness for C5: viewer "B" fetching the fresh countdown link. -/
theorem fetch_requires_session_witness :
    freshLink.status ≠ "revoked" ∧
    get_pdf_file freshLink "B" 7 true true =
      (FetchResult.http 403 "Please access the link first", freshLink) :=
  ⟨by decide, (fetch_requires_session freshLink "B" 7 true true (by decide) rfl rfl).1⟩

/-- C6: the access log stays bounded by 100 entries across any request
sequence, and eviction is strict FIFO: starting from an empty log, after
101 successful accesses the final log is exactly the entries of requests
2..101 in order, the entry of the newest request is present, and the entry
of the oldest request is absent (whenever its timestamp differs from all
later ones). -/
theorem access_log_bounded_fifo :
    (∀ (l : Link) (reqs : List ViewRequest), l.access_log.length ≤ 100 →
      (run_views l reqs).1.access_log.length ≤ 100) ∧
    (∀ (l : Link) (reqs : List ViewRequest), l.access_log = [] →
      (run_views l reqs).2 = true → reqs.length = 101 →
      (run_views l reqs).1.access_log = (reqs.drop 1).map entry_of ∧
      (∀ r, reqs.getLast? = some r → entry_of r ∈ (run_views l reqs).1.access_log) ∧
      (∀ r0, reqs.head? = some r0 →
        (∀ r' ∈ reqs.drop 1, r'.now ≠ r0.now) →
        entry_of r0 ∉ (run_views l reqs).1.access_log)) := by
  constructor
  · intro l reqs h
    exact run_views_log_length h
  · intro l reqs hlog hok hlen
    have hbase : (run_views l reqs).1.access_log = keepLast 100 (reqs.map entry_of) := by
      have hr := run_views_log (by rw [hlog]; simp) hok
      rwa [hlog, List.nil_append] at hr
    have hkeep : keepLast 100 (reqs.map entry_of) = (reqs.map entry_of).drop 1 := by
      unfold keepLast
      rw [List.length_map, hlen]
    have hlog1 : (run_views l reqs).1.access_log = (reqs.drop 1).map entry_of := by
      rw [hbase, hkeep, List.map_drop]
    refine ⟨hlog1, ?_, ?_⟩
    · intro r hr
      rw [hbase, hkeep]
      apply getLast?_mem_drop_one
      · rw [List.length_map, hlen]
        omega
      · rw [List.getLast?_map, hr]
        rfl
    · intro r0 hr0 hfresh hmem
      rw [hlog1] at hmem
      obtain ⟨rp, hrmem, hreq⟩ := List.mem_map.mp hmem
      have hts : rp.now = r0.now := congrArg AccessEntry.timestamp hreq
      exact absurd hts (hfresh rp hrmem)

set_option maxRecDepth 100000 in
/-- Witness for C6: 101 successful accesses to the sample manual link at
times 0..100; the final log is the entries of requests 2..101. -/
theorem access_log_bounded_fifo_witness :
    manualLink.access_log = [] ∧
    (run_views manualLink logReqs).2 = true ∧
    logReqs.length = 101 ∧
    (run_views manualLink logReqs).1.access_log = (logReqs.drop 1).map entry_of :=
  ⟨rfl, by decide, by decide,
   (access_log_bounded_fifo.2 manualLink logReqs rfl (by decide) (by decide)).1⟩

/-- C7 counterexample: `create_link` performs no expiry-config validation.
With an owned pdf and an active subscription, Countdown mode with all
duration components at their default 0 succeeds and stores duration 0
(non-positive), and Fixed mode without a deadline succeeds and stores no
deadline — the claim says both must fail. -/
theorem create_link_accepts_bad_config_counterexample :
    (create_link true true
        { pdf_id := "P1", expiry_mode := "countdown" } "U1" "L1" "T1" 0).isOk = true ∧
    (create_link true true
        { pdf_id := "P1", expiry_mode := "countdown" } "U1" "L1" "T1" 0).map
      Link.expiry_duration_seconds = .ok (some 0) ∧
    (create_link true true
        { pdf_id := "P1", expiry_mode := "fixed" } "U1" "L1" "T1" 0).isOk = true ∧
    (create_link true true
        { pdf_id := "P1", expiry_mode := "fixed" } "U1" "L1" "T1" 0).map
      Link.expires_at = .ok none :=
  ⟨rfl, rfl, rfl, rfl⟩

/-- C7 (amended): `create_link` fails only with 404 (pdf not owned,
checked first) or 403 (subscription inactive); with both checks passing it
always succeeds, whatever the mode parameters: the created link is active,
a Countdown link stores `hours*3600 + minutes*60 + seconds` (possibly zero
or negative) as its duration, and a Fixed link stores the supplied
optional deadline, missing deadline included. No InvalidExpiryConfig
failure exists. -/
theorem create_link_no_config_validation
    (pdfOwned subActive : Bool) (data : LinkCreate)
    (oid linkId tok : String) (now : Int) :
    (pdfOwned = false →
      create_link pdfOwned subActive data oid linkId tok now = .error 404) ∧
    (pdfOwned = true → subActive = false →
      create_link pdfOwned subActive data oid linkId tok now = .error 403) ∧
    (pdfOwned = true → subActive = true →
      (create_link pdfOwned subActive data oid linkId tok now).isOk = true) ∧
    (∀ l, create_link pdfOwned subActive data oid linkId tok now = .ok l →
      l.status = "active" ∧
      (data.expiry_mode = "countdown" →
        l.expiry_duration_seconds =
          some (data.expiry_hours * 3600 + data.expiry_minutes * 60 +
            data.expiry_seconds)) ∧
      (data.expiry_mode = "fixed" → l.expires_at = data.expiry_fixed_datetime)) := by
  refine ⟨?_, ?_, ?_, ?_⟩
  · intro hp
    subst hp
    rfl
  · intro hp hs
    subst hp
    subst hs
    rfl
  · intro hp hs
    subst hp
    subst hs
    rfl
  · intro l h
    unfold create_link at h
    split at h
    · exact Except.noConfusion h
    · split at h
      · exact Except.noConfusion h
      · simp only [Except.ok.injEq] at h
        subst h
        refine ⟨rfl, ?_, ?_⟩
        · intro hm
          simp only [if_pos hm]
        · intro hm
          have hmc : ¬ data.expiry_mode = "countdown" := by rw [hm]; decide
          simp only [if_neg hmc, if_pos hm]

/-- Witness for C7: the 404 and 403 failures, and a successful creation
with a negative countdown duration. -/
theorem create_link_no_config_validation_witness :
    (create_link false true { pdf_id := "P9", expiry_mode := "manual" }
        "U9" "L9" "T9" 0 = .error 404) ∧
    (create_link true false { pdf_id := "P9", expiry_mode := "manual" }
        "U9" "L9" "T9" 0 = .error 403) ∧
    ((create_link true true
        { pdf_id := "P9", expiry_mode := "countdown", expiry_seconds := -5 }
        "U9" "L9" "T9" 0).isOk = true) :=
  ⟨(create_link_no_config_validation false true
      { pdf_id := "P9", expiry_mode := "manual" } "U9" "L9" "T9" 0).1 rfl,
   (create_link_no_config_validation true false
      { pdf_id := "P9", expiry_mode := "manual" } "U9" "L9" "T9" 0).2.1 rfl rfl,
   (create_link_no_config_validation true true
      { pdf_id := "P9", expiry_mode := "countdown", expiry_seconds := -5 }
      "U9" "L9" "T9" 0).2.2.1 rfl rfl⟩

/-- C8: every successful access increments `open_count` by exactly 1 and
adds the viewer IP to `unique_ips` only when absent, and therefore
`open_count ≥ |unique_ips|` is preserved across any sequence of
accesses. -/
theorem open_count_dominates_unique :
    (∀ (oa : Bool) (l : Link) (ip ua : String) (now : Int)
        (resp : LinkAccessResponse) (l1 : Link),
      access_link oa l ip ua now = some (resp, l1) → resp.status = "active" →
      l1.open_count = l.open_count + 1 ∧
      l1.unique_ips =
        (if ip ∈ l.unique_ips then l.unique_ips else l.unique_ips ++ [ip])) ∧
    (∀ (l : Link) (reqs : List ViewRequest), l.unique_ips.length ≤ l.open_count →
      (run_views l reqs).1.unique_ips.length ≤ (run_views l reqs).1.open_count) := by
  constructor
  · intro oa l ip ua now resp l1 h hact
    have heff := access_link_active_effects h hact
    exact ⟨heff.2.1, heff.2.2.1⟩
  · intro l reqs h
    exact run_views_count_invariant h

set_option maxRecDepth 8000 in
/-- Witness for C8: one recorded access on the sample manual link, and a
one-request run on the sample session link. -/
theorem open_count_dominates_unique_witness :
    ((recordAccess manualLink "A" "u" 3).open_count = manualLink.open_count + 1 ∧
     (recordAccess manualLink "A" "u" 3).unique_ips =
       (if "A" ∈ manualLink.unique_ips then manualLink.unique_ips
        else manualLink.unique_ips ++ ["A"])) ∧
    ((run_views sessionLink [⟨"A", "u", 10⟩]).1.unique_ips.length ≤
      (run_views sessionLink [⟨"A", "u", 10⟩]).1.open_count) :=
  ⟨open_count_dominates_unique.1 true manualLink "A" "u" 3
     (activeResponse manualLink "A" 3 none none)
     (recordAccess manualLink "A" "u" 3) (by decide) (by decide),
   open_count_dominates_unique.2 sessionLink [⟨"A", "u", 10⟩] (by decide)⟩

/-- C9: when an owner deletes a pdf, every link referencing it is set to
status "revoked" in place — no link is deleted, links for other pdfs are
untouched, and all link history (counters, log, sessions) remains
queryable. -/
theorem delete_pdf_revokes_links
    (uid pid : String) (pdfs : List Pdf) (links : List Link)
    (pdfs1 : List Pdf) (links1 : List Link) (delta : Int)
    (h : delete_pdf uid pid pdfs links = some (pdfs1, links1, delta)) :
    links1.length = links.length ∧
    (∀ l ∈ links, l.pdf_id = pid → { l with status := "revoked" } ∈ links1) ∧
    (∀ l ∈ links, l.pdf_id ≠ pid → l ∈ links1) := by
  unfold delete_pdf at h
  split at h
  · exact Option.noConfusion h
  · simp only [Option.some.injEq, Prod.mk.injEq] at h
    obtain ⟨h1, h2, h3⟩ := h
    subst h2
    refine ⟨List.length_map _ _, ?_, ?_⟩
    · intro l hm hpid
      have hmm := List.mem_map_of_mem
        (fun q => if q.pdf_id = pid then { q with status := "revoked" } else q) hm
      simp only [if_pos hpid] at hmm
      exact hmm
    · intro l hm hpid
      have hmm := List.mem_map_of_mem
        (fun q => if q.pdf_id = pid then { q with status := "revoked" } else q) hm
      simp only [if_neg hpid] at hmm
      exact hmm

/-- Witness for C9: deleting pdf "P2" revokes the sample manual link. -/
theorem delete_pdf_revokes_links_witness :
    delete_pdf "U2" "P2" [⟨"P2", "U2", 7⟩] [manualLink] =
      some ([], [revokedLink], -7) ∧
    ([revokedLink].length = [manualLink].length ∧
     (∀ l ∈ [manualLink], l.pdf_id = "P2" →
       { l with status := "revoked" } ∈ [revokedLink]) ∧
     (∀ l ∈ [manualLink], l.pdf_id ≠ "P2" → l ∈ [revokedLink])) :=
  ⟨by decide,
   delete_pdf_revokes_links "U2" "P2" [⟨"P2", "U2", 7⟩] [manualLink]
     [] [revokedLink] (-7) (by decide)⟩

/-- C10: Fetch never mutates the link record: the stored record after a
`get_pdf_file` call is the input record, so `open_count`, `unique_ips`,
`access_log`, `ip_sessions`, `first_open_at` and `status` are all
unchanged — repeated Fetches of already-resolved content never count as
opens. -/
theorem fetch_never_mutates
    (l : Link) (ip : String) (now : Int) (pdfFound fileExists : Bool) :
    (get_pdf_file l ip now pdfFound fileExists).2 = l ∧
    (get_pdf_file l ip now pdfFound fileExists).2.open_count = l.open_count ∧
    (get_pdf_file l ip now pdfFound fileExists).2.unique_ips = l.unique_ips ∧
    (get_pdf_file l ip now pdfFound fileExists).2.access_log = l.access_log ∧
    (get_pdf_file l ip now pdfFound fileExists).2.ip_sessions = l.ip_sessions ∧
    (get_pdf_file l ip now pdfFound fileExists).2.first_open_at = l.first_open_at ∧
    (get_pdf_file l ip now pdfFound fileExists).2.status = l.status := by
  have h : (get_pdf_file l ip now pdfFound fileExists).2 = l := by
    unfold get_pdf_file fetchContent
    repeat' split
    all_goals rfl
  rw [h]
  exact ⟨rfl, rfl, rfl, rfl, rfl, rfl, rfl⟩
